import Mathlib

/-!
Verification of the chat-completions SSE proxy (src/main.ts).

The handler adapts a task-run event stream into OpenAI-style streaming
chat-completion chunks.  We embed the request-validation phase of `fetch`
and the body of the `start` callback of the `ReadableStream` shallowly:
backend events become an explicit list, the writable controller becomes
a list of emitted SSE events plus a closed flag, and an exception thrown
while consuming the stream is modelled as an explicit stream item.
-/

/-- JS string-or-default: `x || d` on an optional string (empty string is falsy). -/
def orDefault (m : Option String) (d : String) : String :=
  match m with
  | some s => if s = "" then d else s
  | none => d

/-- Lowercase hexadecimal digit character, as produced by JSON.stringify. -/
def hexDigitChar (n : Nat) : Char :=
  if n < 10 then Char.ofNat (48 + n) else Char.ofNat (87 + n)

/-- How JSON.stringify escapes one character inside a string literal. -/
def escapeChar (c : Char) : List Char :=
  if c = '"' then ['\\', '"']
  else if c = '\\' then ['\\', '\\']
  else if c = '\x08' then ['\\', 'b']
  else if c = '\x09' then ['\\', 't']
  else if c = '\x0a' then ['\\', 'n']
  else if c = '\x0c' then ['\\', 'f']
  else if c = '\x0d' then ['\\', 'r']
  else if c.toNat < 32 then
    ['\\', 'u', '0', '0', hexDigitChar (c.toNat / 16), hexDigitChar (c.toNat % 16)]
  else [c]

/-- JSON.stringify escaping of a whole string (the body between the quotes). -/
def jsonEscapeString (s : String) : String :=
  String.mk (s.data.foldr (fun c acc => escapeChar c ++ acc) [])

/-- `source_stats` of a progress-stats event; absent counters are `none`. -/
structure SourceStats where
  num_sources_considered : Option Nat
  num_sources_read : Option Nat
deriving DecidableEq, Repr

/-- `event.run` of a state event.  `error_message` is `event.run.error?.message`. -/
structure RunInfo where
  run_id : String
  status : String
  created_at : String
  modified_at : String
  error_message : Option String
deriving DecidableEq, Repr

/-- `event.output` of a state event.  `basis` is opaque backend data that the
source only re-serializes; we model it as the string it serializes to inside
a JSON string literal position. -/
structure TaskOutput where
  basis : String
  content : String
deriving DecidableEq, Repr

/-- A backend event as consumed by the `for await` loop: a type tag plus the
optional fields the handler reads.  `error_message` is `event.error?.message`. -/
structure Event where
  type : String
  message : Option String
  source_stats : Option SourceStats
  run : Option RunInfo
  output : Option TaskOutput
  error_message : Option String
deriving DecidableEq, Repr

/-- The `delta` object of an emitted chunk. -/
inductive Delta where
  | role (r : String)
  | reasoning (text : String)
  | content (text : String)
  | empty
deriving DecidableEq, Repr

/-- One element of the `choices` array. -/
structure Choice where
  index : Nat
  delta : Delta
  finish_reason : Option String
deriving DecidableEq, Repr

/-- The zero-valued usage block of the final chunk. -/
structure Usage where
  prompt_tokens : Nat
  completion_tokens : Nat
  total_tokens : Nat
deriving DecidableEq, Repr

/-- An emitted chat-completion chunk object. -/
structure Chunk where
  id : String
  object : String
  created : Nat
  model : String
  choices : List Choice
  usage : Option Usage
deriving DecidableEq, Repr

/-- An SSE event written to the controller: a JSON chunk or the literal
terminator line. -/
inductive SseEvent where
  | chunk (c : Chunk)
  | done
deriving DecidableEq, Repr

/-- Per-request constants fixed before the stream starts: the request id
`chatcmpl-...`, `body.model`, the include_usage flag, and the clock value
used for `created` fields. -/
structure Ctx where
  requestId : String
  model : String
  include_usage : Bool
  created : Nat
deriving DecidableEq, Repr

/-- Serialization of a delta object, key order as in the source literals. -/
def stringifyDelta : Delta → String
  | Delta.role r => "\x7b\"role\":\"" ++ jsonEscapeString r ++ "\"\x7d"
  | Delta.reasoning t => "\x7b\"reasoning_content\":\"" ++ jsonEscapeString t ++ "\"\x7d"
  | Delta.content t => "\x7b\"content\":\"" ++ jsonEscapeString t ++ "\"\x7d"
  | Delta.empty => "\x7b\x7d"

/-- Serialization of one choices element. -/
def stringifyChoice (ch : Choice) : String :=
  "\x7b\"index\":" ++ toString ch.index ++ ",\"delta\":" ++ stringifyDelta ch.delta
    ++ ",\"finish_reason\":"
    ++ (match ch.finish_reason with
        | none => "null"
        | some r => "\"" ++ jsonEscapeString r ++ "\"")
    ++ "\x7d"

/-- Serialization of the usage block. -/
def stringifyUsage (u : Usage) : String :=
  "\x7b\"prompt_tokens\":" ++ toString u.prompt_tokens
    ++ ",\"completion_tokens\":" ++ toString u.completion_tokens
    ++ ",\"total_tokens\":" ++ toString u.total_tokens ++ "\x7d"

/-- JSON.stringify of a chunk object, keys in insertion order. -/
def stringifyChunk (c : Chunk) : String :=
  "\x7b\"id\":\"" ++ jsonEscapeString c.id
    ++ "\",\"object\":\"" ++ jsonEscapeString c.object
    ++ "\",\"created\":" ++ toString c.created
    ++ ",\"model\":\"" ++ jsonEscapeString c.model
    ++ "\",\"choices\":[" ++ String.intercalate "," (c.choices.map stringifyChoice) ++ "]"
    ++ (match c.usage with
        | none => ""
        | some u => ",\"usage\":" ++ stringifyUsage u)
    ++ "\x7d"

/-- The bytes written to the controller for one SSE event. -/
def renderSse : SseEvent → String
  | SseEvent.chunk c => "data: " ++ stringifyChunk c ++ "\n\n"
  | SseEvent.done => "data: [DONE]\n\n"

/-- JSON.stringify(resultJson, null, 2) at the fixed object shape built on the
completed path (src/main.ts lines 192-207), with `basis` modelled as the
string its serialization occupies in string-literal position. -/
def stringifyResult (out : TaskOutput) (run : RunInfo) : String :=
  "\x7b\n  \"basis\": \"" ++ jsonEscapeString out.basis
    ++ "\",\n  \"output\": \"" ++ jsonEscapeString out.content
    ++ "\",\n  \"run_info\": \x7b\n    \"id\": \"" ++ jsonEscapeString run.run_id
    ++ "\",\n    \"status\": \"" ++ jsonEscapeString run.status
    ++ "\",\n    \"created_at\": \"" ++ jsonEscapeString run.created_at
    ++ "\",\n    \"modified_at\": \"" ++ jsonEscapeString run.modified_at
    ++ "\"\n  \x7d\n\x7d"

/-- One iteration of the `switch` in the `for await` loop (src/main.ts lines
129-315): the SSE events enqueued for this backend event, and whether the
handler returned (terminal path; the returned list then already ends with the
[DONE] event and the controller is closed). -/
def processEvent (ctx : Ctx) (e : Event) : List SseEvent × Bool :=
  if e.type = "task_run.progress_msg.plan" || e.type = "task_run.progress_msg.search"
      || e.type = "task_run.progress_msg.tool_call"
      || e.type = "task_run.progress_msg.exec_status" then
    match e.message with
    | some m =>
      if m = "" then ([], false)
      else
        ([SseEvent.chunk
            { id := ctx.requestId, object := "chat.completion.chunk",
              created := ctx.created, model := ctx.model,
              choices := [{ index := 0, delta := Delta.reasoning m, finish_reason := none }],
              usage := none }], false)
    | none => ([], false)
  else if e.type = "task_run.progress_stats" then
    match e.source_stats with
    | some s =>
      ([SseEvent.chunk
          { id := ctx.requestId, object := "chat.completion.chunk",
            created := ctx.created, model := ctx.model,
            choices := [{ index := 0,
                          delta := Delta.reasoning
                            ("Processing " ++ toString (s.num_sources_considered.getD 0)
                              ++ " sources, read " ++ toString (s.num_sources_read.getD 0)),
                          finish_reason := none }],
            usage := none }], false)
    | none => ([], false)
  else if e.type = "task_run.state" then
    match e.run with
    | some run =>
      if run.status = "completed" then
        match e.output with
        | some out =>
          ([SseEvent.chunk
              { id := ctx.requestId, object := "chat.completion.chunk",
                created := ctx.created, model := ctx.model,
                choices := [{ index := 0,
                              delta := Delta.content
                                ("```json\n" ++ stringifyResult out run ++ "\n```"),
                              finish_reason := none }],
                usage := none },
            SseEvent.chunk
              { id := ctx.requestId, object := "chat.completion.chunk",
                created := ctx.created, model := ctx.model,
                choices := [{ index := 0, delta := Delta.empty, finish_reason := some "stop" }],
                usage := if ctx.include_usage then
                    some { prompt_tokens := 0, completion_tokens := 0, total_tokens := 0 }
                  else none },
            SseEvent.done], true)
        | none => ([], false)
      else if run.status = "failed" || run.status = "cancelled" then
        ([SseEvent.chunk
            { id := ctx.requestId, object := "chat.completion.chunk",
              created := ctx.created, model := ctx.model,
              choices := [{ index := 0,
                            delta := Delta.content
                              ("**Error**: Task " ++ run.status ++ " - "
                                ++ orDefault run.error_message "Unknown error"),
                            finish_reason := some "stop" }],
              usage := none },
          SseEvent.done], true)
      else ([], false)
    | none => ([], false)
  else if e.type = "error" then
    ([SseEvent.chunk
        { id := ctx.requestId, object := "chat.completion.chunk",
          created := ctx.created, model := ctx.model,
          choices := [{ index := 0,
                        delta := Delta.content
                          ("**Error**: " ++ orDefault e.error_message "Unknown error"),
                        finish_reason := some "stop" }],
          usage := none },
      SseEvent.done], true)
  else ([], false)

/-- One logical item of the awaited event stream: a delivered event, or an
exception raised while consuming (which transfers control to the `catch`
block; `message` is `error.message`). -/
inductive StreamItem where
  | ev (e : Event)
  | exn (message : Option String)
deriving DecidableEq, Repr

/-- The `catch` block (src/main.ts lines 321-352): emit a bolded error chunk
with finish_reason "stop", then the [DONE] line, then close. -/
def catchChunks (ctx : Ctx) (msg : Option String) : List SseEvent :=
  [SseEvent.chunk
      { id := ctx.requestId, object := "chat.completion.chunk",
        created := ctx.created, model := ctx.model,
        choices := [{ index := 0,
                      delta := Delta.content
                        ("**Error**: " ++ orDefault msg "Stream processing failed"),
                      finish_reason := some "stop" }],
        usage := none },
    SseEvent.done]

/-- The `for await` loop plus its fallback and catch handling: the SSE events
emitted after the header chunk, and whether the controller was closed.  An
empty remainder reaches the fallback close (src/main.ts lines 318-320). -/
def eventsLoop (ctx : Ctx) : List StreamItem → List SseEvent × Bool
  | [] => ([SseEvent.done], true)
  | StreamItem.exn m :: _ => (catchChunks ctx m, true)
  | StreamItem.ev e :: rest =>
    let r := processEvent ctx e
    if r.2 then (r.1, true)
    else
      let t := eventsLoop ctx rest
      (r.1 ++ t.1, t.2)

/-- The header chunk announcing the assistant role (src/main.ts lines 102-118). -/
def headerChunk (ctx : Ctx) : Chunk :=
  { id := ctx.requestId, object := "chat.completion.chunk",
    created := ctx.created, model := ctx.model,
    choices := [{ index := 0, delta := Delta.role "assistant", finish_reason := none }],
    usage := none }

/-- The whole `start` callback: header chunk first, then the event loop.
Returns the full list of SSE events written and the closed flag. -/
def runStart (ctx : Ctx) (items : List StreamItem) : List SseEvent × Bool :=
  let t := eventsLoop ctx items
  (SseEvent.chunk (headerChunk ctx) :: t.1, t.2)

/-- `stream_options` of the request body. -/
structure StreamOptions where
  include_usage : Option Bool
deriving DecidableEq, Repr

/-- One element of `body.messages`. -/
structure Message where
  role : String
  content : String
deriving DecidableEq, Repr

/-- A parsed ChatCompletionRequest body.  `stream` is optional as in the
interface; JS truthiness makes `some true` the only streaming value. -/
structure ReqBody where
  model : String
  messages : List Message
  stream : Option Bool
  stream_options : Option StreamOptions
deriving DecidableEq, Repr

/-- `body.stream_options?.include_usage` under JS truthiness. -/
def includeUsageFlag (b : ReqBody) : Bool :=
  match b.stream_options with
  | some so => so.include_usage.getD false
  | none => false

/-- The inbound request as the handler reads it: URL path, method, the
Authorization header, and the body (`none` models request.json() throwing). -/
structure HttpRequest where
  pathname : String
  method : String
  authorization : Option String
  body : Option ReqBody
deriving DecidableEq, Repr

/-- JS String.replace with a string pattern: replaces the first occurrence only. -/
def replaceFirst (s pat rep : String) : String :=
  match s.splitOn pat with
  | [] => s
  | [x] => x
  | x :: rest => x ++ rep ++ String.intercalate pat rest

/-- `request.headers.get("Authorization")?.replace("Bearer ", "")`. -/
def apiKeyOf (req : HttpRequest) : Option String :=
  req.authorization.map (fun a => replaceFirst a "Bearer " "")

/-- The outcome of `fetch` before any stream bytes exist: the plain 404 usage
response, a JSON error response, or an opened SSE stream with its per-request
context. -/
inductive FetchOutcome where
  | plain (status : Nat) (body : String)
  | jsonError (status : Nat) (message : String) (type : String)
  | sse (ctx : Ctx)
deriving DecidableEq, Repr

/-- Body of the 404 response (the source embeds a multi-line curl example,
abbreviated here since nothing reads it). -/
def notFoundBody : String := "Only POST /chat/completions is supported"

/-- The request-validation phase of `fetch` (src/main.ts lines 16-95 and
366-377): path/method guard, auth guard, JSON parse guard, stream guard, and
the task-creation try/catch.  `requestId` and `created` stand for the two
clock reads; `createError` is `some msg` when `parallel.beta.taskRun.create`
throws with that message. -/
def fetchHandler (req : HttpRequest) (requestId : String) (created : Nat)
    (createError : Option String) : FetchOutcome :=
  if ¬(req.pathname = "/chat/completions" ∧ req.method = "POST") then
    FetchOutcome.plain 404 notFoundBody
  else
    match apiKeyOf req with
    | none => FetchOutcome.jsonError 401 "Authorization header with API key required"
        "invalid_request_error"
    | some k =>
      if k = "" then
        FetchOutcome.jsonError 401 "Authorization header with API key required"
          "invalid_request_error"
      else
        match req.body with
        | none => FetchOutcome.jsonError 400 "Invalid JSON in request body"
            "invalid_request_error"
        | some b =>
          if ¬(b.stream.getD false) then
            FetchOutcome.jsonError 400 "This proxy requires stream: true to be set"
              "invalid_request_error"
          else
            match createError with
            | some msg => FetchOutcome.jsonError 500 ("Task creation failed: " ++ msg)
                "internal_error"
            | none => FetchOutcome.sse
                { requestId := requestId, model := b.model,
                  include_usage := includeUsageFlag b, created := created }

/-! ### Example inputs used by counterexamples and witnesses -/

/-- A sample per-request context. -/
def ctxEx : Ctx :=
  { requestId := "chatcmpl-1", model := "base", include_usage := false, created := 0 }

/-- The same context with usage reporting requested. -/
def ctxExU : Ctx :=
  { requestId := "chatcmpl-1", model := "base", include_usage := true, created := 0 }

/-- A progress-stats event with both counters present. -/
def statsEv (n r : Nat) : Event :=
  { type := "task_run.progress_stats", message := none,
    source_stats := some { num_sources_considered := some n, num_sources_read := some r },
    run := none, output := none, error_message := none }

/-- A progress message event of the plan kind. -/
def planMsgEv (m : String) : Event :=
  { type := "task_run.progress_msg.plan", message := some m, source_stats := none,
    run := none, output := none, error_message := none }

/-- A state event carrying a run and an output. -/
def stateEv (run : RunInfo) (out : TaskOutput) : Event :=
  { type := "task_run.state", message := none, source_stats := none,
    run := some run, output := some out, error_message := none }

/-- An explicit error event. -/
def errorEv (m : Option String) : Event :=
  { type := "error", message := none, source_stats := none,
    run := none, output := none, error_message := m }

/-- A sample completed run. -/
def runEx : RunInfo :=
  { run_id := "run1", status := "completed", created_at := "c", modified_at := "m",
    error_message := none }

/-- A sample task output whose content is the plain text Hello. -/
def outEx : TaskOutput := { basis := "B", content := "Hello" }

/-! ### Shared lemmas -/

/-- Whenever an iteration of the switch takes a terminal path, the events it
emitted end with the [DONE] line. -/
theorem processEvent_terminal (ctx : Ctx) (e : Event)
    (h : (processEvent ctx e).2 = true) :
    (processEvent ctx e).1.getLast? = some SseEvent.done := by
  unfold processEvent at *
  repeat' split at h
  all_goals first
  | rfl
  | simp_all

/-- The event loop always emits a final [DONE] line and closes the controller. -/
theorem eventsLoop_ends_done (ctx : Ctx) (items : List StreamItem) :
    (eventsLoop ctx items).1.getLast? = some SseEvent.done
      ∧ (eventsLoop ctx items).2 = true := by
  induction items with
  | nil => simp [eventsLoop]
  | cons it rest ih =>
    cases it with
    | exn m => simp [eventsLoop, catchChunks]
    | ev e =>
      by_cases h : (processEvent ctx e).2 = true
      · simpa [eventsLoop, h] using processEvent_terminal ctx e h
      · obtain ⟨h3, h4⟩ := ih
        simp [eventsLoop, h, h3, h4]

/-- C1: once the SSE stream is open, every finite backend event sequence —
ending in a completed run, a failed or cancelled run, an explicit error
event, an exception thrown while consuming, or no terminal event at all —
leaves an output whose last element renders as the literal
data: [DONE] line, and the controller closed. -/
theorem stream_always_terminated (ctx : Ctx) (items : List StreamItem) :
    ((runStart ctx items).1.map renderSse).getLast? = some "data: [DONE]\n\n"
      ∧ (runStart ctx items).2 = true := by
  obtain ⟨h1, h2⟩ := eventsLoop_ends_done ctx items
  have hne : (eventsLoop ctx items).1 ≠ [] := by
    intro hx
    rw [hx] at h1
    simp at h1
  refine ⟨?_, by simpa [runStart] using h2⟩
  simp [runStart, List.getLast?_cons, h1, renderSse]

/-- The reasoning chunk produced for a stats event with 5 considered and 2
read sources under the sample context. -/
def statsChunkEx : Chunk :=
  { id := "chatcmpl-1", object := "chat.completion.chunk", created := 0, model := "base",
    choices := [{ index := 0, delta := Delta.reasoning "Processing 5 sources, read 2",
                  finish_reason := none }],
    usage := none }

/-- C2 counterexample: two consecutive progress-stats events with identical
counters each produce a chunk — the second, repeated stats line is emitted,
so non-increasing counters are not de-duplicated. -/
theorem stats_no_dedup_counterexample :
    (runStart ctxEx [StreamItem.ev (statsEv 5 2), StreamItem.ev (statsEv 5 2)]).1 =
      [SseEvent.chunk (headerChunk ctxEx), SseEvent.chunk statsChunkEx,
       SseEvent.chunk statsChunkEx, SseEvent.done] := by
  decide

/-- C2 amended: every progress-stats event whose source_stats field is
present emits exactly one reasoning chunk with the formatted counts; no
comparison with previously seen values is made. -/
theorem stats_always_emit (ctx : Ctx) (s : SourceStats) :
    processEvent ctx
      { type := "task_run.progress_stats", message := none, source_stats := some s,
        run := none, output := none, error_message := none } =
      ([SseEvent.chunk
          { id := ctx.requestId, object := "chat.completion.chunk",
            created := ctx.created, model := ctx.model,
            choices := [{ index := 0,
                          delta := Delta.reasoning
                            ("Processing " ++ toString (s.num_sources_considered.getD 0)
                              ++ " sources, read " ++ toString (s.num_sources_read.getD 0)),
                          finish_reason := none }],
            usage := none }], false) := by
  rfl

/-- C3 counterexample: when the event stream ends without a terminal event,
the fallback emits the [DONE] line directly after the header — no chunk with
finish_reason stop (and no empty-delta terminal chunk) exists in the output. -/
theorem fallback_no_terminal_chunk :
    runStart ctxEx [] = ([SseEvent.chunk (headerChunk ctxEx), SseEvent.done], true)
      ∧ (runStart ctxEx []).1.all
          (fun ev => match ev with
            | SseEvent.done => true
            | SseEvent.chunk c =>
              c.choices.all (fun ch => decide (ch.finish_reason ≠ some "stop"))) = true := by
  constructor
  · decide
  · decide

/-- C3 amended: on the completed-run path, exactly one terminal chunk with an
empty delta and finish_reason stop is emitted after the content chunk,
followed by exactly one [DONE] line, and nothing is emitted afterwards even
when further stream items are pending; the fallback path, reached when the
event stream ends without a terminal event, emits only the [DONE] line with
no terminal chunk. -/
theorem completed_terminal_sequence (ctx : Ctx) (run : RunInfo) (out : TaskOutput)
    (rest : List StreamItem) (h : run.status = "completed") :
    runStart ctx (StreamItem.ev (stateEv run out) :: rest) =
      ([SseEvent.chunk (headerChunk ctx),
        SseEvent.chunk
          { id := ctx.requestId, object := "chat.completion.chunk",
            created := ctx.created, model := ctx.model,
            choices := [{ index := 0,
                          delta := Delta.content
                            ("```json\n" ++ stringifyResult out run ++ "\n```"),
                          finish_reason := none }],
            usage := none },
        SseEvent.chunk
          { id := ctx.requestId, object := "chat.completion.chunk",
            created := ctx.created, model := ctx.model,
            choices := [{ index := 0, delta := Delta.empty, finish_reason := some "stop" }],
            usage := if ctx.include_usage then
                some { prompt_tokens := 0, completion_tokens := 0, total_tokens := 0 }
              else none },
        SseEvent.done], true)
      ∧ runStart ctx [] = ([SseEvent.chunk (headerChunk ctx), SseEvent.done], true) := by
  constructor
  · simp [runStart, eventsLoop, processEvent, stateEv, h]
  · simp [runStart, eventsLoop]

/-- C3 witness: the amended statement at a concrete completed run. -/
theorem completed_terminal_sequence_witness :
    runStart ctxEx (StreamItem.ev (stateEv runEx outEx) :: [StreamItem.ev (statsEv 9 9)]) =
      ([SseEvent.chunk (headerChunk ctxEx),
        SseEvent.chunk
          { id := ctxEx.requestId, object := "chat.completion.chunk",
            created := ctxEx.created, model := ctxEx.model,
            choices := [{ index := 0,
                          delta := Delta.content
                            ("```json\n" ++ stringifyResult outEx runEx ++ "\n```"),
                          finish_reason := none }],
            usage := none },
        SseEvent.chunk
          { id := ctxEx.requestId, object := "chat.completion.chunk",
            created := ctxEx.created, model := ctxEx.model,
            choices := [{ index := 0, delta := Delta.empty, finish_reason := some "stop" }],
            usage := if ctxEx.include_usage then
                some { prompt_tokens := 0, completion_tokens := 0, total_tokens := 0 }
              else none },
        SseEvent.done], true)
      ∧ runStart ctxEx [] = ([SseEvent.chunk (headerChunk ctxEx), SseEvent.done], true) :=
  completed_terminal_sequence ctxEx runEx outEx [StreamItem.ev (statsEv 9 9)] rfl

/-- The error chunk produced for an error event with message boom under the
sample context. -/
def errChunkEx : Chunk :=
  { id := "chatcmpl-1", object := "chat.completion.chunk", created := 0, model := "base",
    choices := [{ index := 0, delta := Delta.content "**Error**: boom",
                  finish_reason := some "stop" }],
    usage := none }

/-- C4 counterexample: an error event emits a single content chunk that
itself carries finish_reason stop, followed directly by [DONE]; no separate
terminal chunk with an empty delta appears anywhere in the output, so the
error delta is not followed by a distinct finish_reason=stop terminal chunk. -/
theorem error_no_separate_terminal :
    (runStart ctxEx [StreamItem.ev (errorEv (some "boom"))]).1 =
      [SseEvent.chunk (headerChunk ctxEx), SseEvent.chunk errChunkEx, SseEvent.done]
      ∧ (runStart ctxEx [StreamItem.ev (errorEv (some "boom"))]).1.all
          (fun ev => match ev with
            | SseEvent.done => true
            | SseEvent.chunk c =>
              c.choices.all (fun ch => decide (ch.delta ≠ Delta.empty))) = true := by
  constructor
  · decide
  · decide

/-- C4 amended: an error event makes the bolded error text the last content
the client receives — it is carried in a content delta that itself has
finish_reason stop, immediately followed by the [DONE] line, with consumption
stopped, the controller closed, and nothing emitted afterwards. -/
theorem error_event_terminates (ctx : Ctx) (m : Option String) (rest : List StreamItem) :
    eventsLoop ctx (StreamItem.ev (errorEv m) :: rest) =
      ([SseEvent.chunk
          { id := ctx.requestId, object := "chat.completion.chunk",
            created := ctx.created, model := ctx.model,
            choices := [{ index := 0,
                          delta := Delta.content
                            ("**Error**: " ++ orDefault m "Unknown error"),
                          finish_reason := some "stop" }],
            usage := none },
        SseEvent.done], true) := by
  simp [eventsLoop, processEvent, errorEv]

/-- C5 counterexample: a six-character progress message is emitted as one
chunk carrying the whole fragment, not as fixed-size chunks of at most five
characters. -/
theorem no_slow_chunking :
    (runStart ctxEx [StreamItem.ev (planMsgEv "abcdef")]).1 =
      [SseEvent.chunk (headerChunk ctxEx),
       SseEvent.chunk
         { id := "chatcmpl-1", object := "chat.completion.chunk", created := 0,
           model := "base",
           choices := [{ index := 0, delta := Delta.reasoning "abcdef",
                         finish_reason := none }],
           usage := none },
       SseEvent.done]
      ∧ "abcdef".length = 6 := by
  constructor
  · decide
  · decide

/-- C5 amended: every non-empty progress message is emitted as a single
reasoning chunk carrying the entire fragment text; there is no pacing and no
splitting into fixed-size slices. -/
theorem fragment_single_chunk (ctx : Ctx) (m : String) (h : m ≠ "") :
    processEvent ctx (planMsgEv m) =
      ([SseEvent.chunk
          { id := ctx.requestId, object := "chat.completion.chunk",
            created := ctx.created, model := ctx.model,
            choices := [{ index := 0, delta := Delta.reasoning m, finish_reason := none }],
            usage := none }], false) := by
  simp [processEvent, planMsgEv, h]

/-- C5 witness: the amended statement at a concrete six-character fragment. -/
theorem fragment_single_chunk_witness :
    processEvent ctxEx (planMsgEv "abcdef") =
      ([SseEvent.chunk
          { id := ctxEx.requestId, object := "chat.completion.chunk",
            created := ctxEx.created, model := ctxEx.model,
            choices := [{ index := 0, delta := Delta.reasoning "abcdef",
                          finish_reason := none }],
            usage := none }], false) :=
  fragment_single_chunk ctxEx "abcdef" (by decide)

/-- Characters the escaper may place directly after a backslash. -/
def isEscapeCode (c : Char) : Bool :=
  c = '"' || c = '\\' || c = 'b' || c = 'f' || c = 'n' || c = 'r' || c = 't' || c = 'u'

/-- Checker for text in JSON string-literal position: every backslash opens a
two-character escape, a double quote appears only as the body of such an
escape, and every ordinary character lies outside the ASCII control range. -/
def validEscapes : List Char → Bool
  | [] => true
  | ['\\'] => false
  | '\\' :: c2 :: rest2 => isEscapeCode c2 && validEscapes rest2
  | c :: rest => decide (c ≠ '"') && decide (32 ≤ c.toNat) && validEscapes rest

/-- Hex digits are printable and are neither a quote nor a backslash. -/
theorem hexDigitChar_ok (n : Nat) (h : n < 16) :
    hexDigitChar n ≠ '\\' ∧ hexDigitChar n ≠ '"' ∧ 32 ≤ (hexDigitChar n).toNat := by
  interval_cases n <;> exact ⟨by decide, by decide, by decide⟩

/-- A two-character escape sequence steps the checker. -/
theorem validEscapes_cons_esc (c2 : Char) (l : List Char) (h : isEscapeCode c2 = true) :
    validEscapes ('\\' :: c2 :: l) = validEscapes l := by
  simp [validEscapes, h]

/-- A printable ordinary character steps the checker. -/
theorem validEscapes_cons_plain (x : Char) (l : List Char) (hq : x ≠ '"')
    (hb : x ≠ '\\') (hp : 32 ≤ x.toNat) :
    validEscapes (x :: l) = validEscapes l := by
  cases l with
  | nil => simp [validEscapes, hb, hq, hp]
  | cons y ys => simp [validEscapes, hb, hq, hp]

/-- Prepending the escape of one character preserves the checker. -/
theorem validEscapes_escapeChar (c : Char) (l : List Char) :
    validEscapes (escapeChar c ++ l) = validEscapes l := by
  unfold escapeChar
  split_ifs with h1 h2 h3 h4 h5 h6 h7 h8
  · rfl
  · rfl
  · rfl
  · rfl
  · rfl
  · rfl
  · rfl
  · obtain ⟨d1a, d1b, d1c⟩ := hexDigitChar_ok (c.toNat / 16) (by omega)
    obtain ⟨d2a, d2b, d2c⟩ := hexDigitChar_ok (c.toNat % 16) (Nat.mod_lt _ (by norm_num))
    rw [List.cons_append, List.cons_append, List.cons_append, List.cons_append,
      List.cons_append, List.cons_append, List.nil_append]
    rw [validEscapes_cons_esc 'u' _ (by decide)]
    rw [validEscapes_cons_plain '0' _ (by decide) (by decide) (by decide)]
    rw [validEscapes_cons_plain '0' _ (by decide) (by decide) (by decide)]
    rw [validEscapes_cons_plain _ _ d1b d1a d1c]
    rw [validEscapes_cons_plain _ _ d2b d2a d2c]
  · have h9 : 32 ≤ c.toNat := by omega
    rw [List.cons_append, List.nil_append]
    rw [validEscapes_cons_plain c l h1 h2 h9]

/-- The escape of any character consists of printable characters only. -/
theorem escapeChar_printable (c : Char) :
    (escapeChar c).all (fun x => decide (32 ≤ x.toNat)) = true := by
  unfold escapeChar
  split_ifs with h1 h2 h3 h4 h5 h6 h7 h8
  · rfl
  · rfl
  · rfl
  · rfl
  · rfl
  · rfl
  · rfl
  · obtain ⟨-, -, d1c⟩ := hexDigitChar_ok (c.toNat / 16) (by omega)
    obtain ⟨-, -, d2c⟩ := hexDigitChar_ok (c.toNat % 16) (Nat.mod_lt _ (by norm_num))
    simp [d1c, d2c]
  · have h9 : 32 ≤ c.toNat := by omega
    simp [h9]

/-- C6 counterexample: fragment text reaches the chunk unmodified — a message
containing an ASCII control byte is emitted with that byte still present in
the delta, so no sanitize step strips control characters before the fragment
enters the stream. -/
theorem no_sanitize_applied :
    (runStart ctxEx [StreamItem.ev (planMsgEv "a\x01b")]).1 =
      [SseEvent.chunk (headerChunk ctxEx),
       SseEvent.chunk
         { id := "chatcmpl-1", object := "chat.completion.chunk", created := 0,
           model := "base",
           choices := [{ index := 0, delta := Delta.reasoning "a\x01b",
                         finish_reason := none }],
           usage := none },
       SseEvent.done]
      ∧ "a\x01b".data.any (fun c => decide (c.toNat < 32)) = true := by
  constructor
  · decide
  · decide

/-- C6 amended: there is no sanitize step — fragment text is carried
unmodified in the delta value — and escaping happens only where the chunk is
serialized: the JSON string escaper yields text with no raw control
characters, in which every double quote and every backslash occurs only
inside a two-character escape sequence. -/
theorem jsonEscape_safe (s : String) :
    validEscapes (jsonEscapeString s).data = true
      ∧ (jsonEscapeString s).data.all (fun x => decide (32 ≤ x.toNat)) = true := by
  show validEscapes (s.data.foldr (fun c acc => escapeChar c ++ acc) []) = true
    ∧ (s.data.foldr (fun c acc => escapeChar c ++ acc) []).all
        (fun x => decide (32 ≤ x.toNat)) = true
  induction s.data with
  | nil => exact ⟨rfl, rfl⟩
  | cons c l ih =>
    obtain ⟨ih1, ih2⟩ := ih
    refine ⟨?_, ?_⟩
    · simpa [List.foldr_cons, validEscapes_escapeChar] using ih1
    · simp [List.foldr_cons, List.all_append, escapeChar_printable, ih2]

/-- Concatenation of all content-delta texts of an SSE event list, in order. -/
def contentConcat (l : List SseEvent) : String :=
  l.foldr
    (fun ev acc =>
      match ev with
      | SseEvent.chunk c =>
        (c.choices.foldr
          (fun ch a2 =>
            match ch.delta with
            | Delta.content t => t ++ a2
            | _ => a2) "") ++ acc
      | SseEvent.done => acc) ""

/-- The content chunk text emitted for the sample completed run. -/
def codeblockEx : String :=
  "```json\n\x7b\n  \"basis\": \"B\",\n  \"output\": \"Hello\",\n  \"run_info\": \x7b\n    \"id\": \"run1\",\n    \"status\": \"completed\",\n    \"created_at\": \"c\",\n    \"modified_at\": \"m\"\n  \x7d\n\x7d\n```"

set_option maxRecDepth 8192 in
/-- C7 counterexample: for a completed run whose output content is Hello, the
content deltas concatenate to a JSON code block around the run summary, not
to Hello followed by a paragraph separator — no separator is appended and the
raw fragment is not what is emitted. -/
theorem hello_scenario_counterexample :
    (runStart ctxEx [StreamItem.ev (stateEv runEx outEx)]).1 =
      [SseEvent.chunk (headerChunk ctxEx),
       SseEvent.chunk
         { id := "chatcmpl-1", object := "chat.completion.chunk", created := 0,
           model := "base",
           choices := [{ index := 0, delta := Delta.content codeblockEx,
                         finish_reason := none }],
           usage := none },
       SseEvent.chunk
         { id := "chatcmpl-1", object := "chat.completion.chunk", created := 0,
           model := "base",
           choices := [{ index := 0, delta := Delta.empty, finish_reason := some "stop" }],
           usage := none },
       SseEvent.done]
      ∧ contentConcat (runStart ctxEx [StreamItem.ev (stateEv runEx outEx)]).1
          ≠ "Hello\n\n" := by
  constructor
  · decide
  · decide

/-- A string starting with the code fence cannot be the Hello scenario text. -/
theorem codeblock_ne_hello (a b : String) :
    "```json\n" ++ a ++ b ≠ "Hello\n\n" := by
  intro h
  have h2 : ("```json\n" ++ a ++ b).data = "Hello\n\n".data := by rw [h]
  simp [String.data_append] at h2

/-- C7 amended: for a completed run whose output content is Hello, the stream
is the header chunk, then exactly one content chunk whose text is the JSON
code block embedding the run summary, then the terminal chunk, then [DONE];
the concatenated content deltas equal that code block and in particular are
not the raw fragment Hello with an appended paragraph separator. -/
theorem hello_scenario (ctx : Ctx) (run : RunInfo) (out : TaskOutput)
    (h1 : run.status = "completed") (_h2 : out.content = "Hello") :
    runStart ctx [StreamItem.ev (stateEv run out)] =
      ([SseEvent.chunk (headerChunk ctx),
        SseEvent.chunk
          { id := ctx.requestId, object := "chat.completion.chunk",
            created := ctx.created, model := ctx.model,
            choices := [{ index := 0,
                          delta := Delta.content
                            ("```json\n" ++ stringifyResult out run ++ "\n```"),
                          finish_reason := none }],
            usage := none },
        SseEvent.chunk
          { id := ctx.requestId, object := "chat.completion.chunk",
            created := ctx.created, model := ctx.model,
            choices := [{ index := 0, delta := Delta.empty, finish_reason := some "stop" }],
            usage := if ctx.include_usage then
                some { prompt_tokens := 0, completion_tokens := 0, total_tokens := 0 }
              else none },
        SseEvent.done], true)
      ∧ contentConcat (runStart ctx [StreamItem.ev (stateEv run out)]).1
          = "```json\n" ++ stringifyResult out run ++ "\n```"
      ∧ contentConcat (runStart ctx [StreamItem.ev (stateEv run out)]).1
          ≠ "Hello\n\n" := by
  have hmain : runStart ctx [StreamItem.ev (stateEv run out)] =
      ([SseEvent.chunk (headerChunk ctx),
        SseEvent.chunk
          { id := ctx.requestId, object := "chat.completion.chunk",
            created := ctx.created, model := ctx.model,
            choices := [{ index := 0,
                          delta := Delta.content
                            ("```json\n" ++ stringifyResult out run ++ "\n```"),
                          finish_reason := none }],
            usage := none },
        SseEvent.chunk
          { id := ctx.requestId, object := "chat.completion.chunk",
            created := ctx.created, model := ctx.model,
            choices := [{ index := 0, delta := Delta.empty, finish_reason := some "stop" }],
            usage := if ctx.include_usage then
                some { prompt_tokens := 0, completion_tokens := 0, total_tokens := 0 }
              else none },
        SseEvent.done], true) := by
    simp [runStart, eventsLoop, processEvent, stateEv, h1]
  have hconc : contentConcat (runStart ctx [StreamItem.ev (stateEv run out)]).1
      = "```json\n" ++ stringifyResult out run ++ "\n```" := by
    rw [hmain]
    simp [contentConcat, headerChunk]
  refine ⟨hmain, hconc, ?_⟩
  rw [hconc]
  exact codeblock_ne_hello (stringifyResult out run) "\n```"

/-- C7 witness: the amended statement at the sample completed run. -/
theorem hello_scenario_witness :
    runStart ctxEx [StreamItem.ev (stateEv runEx outEx)] =
      ([SseEvent.chunk (headerChunk ctxEx),
        SseEvent.chunk
          { id := ctxEx.requestId, object := "chat.completion.chunk",
            created := ctxEx.created, model := ctxEx.model,
            choices := [{ index := 0,
                          delta := Delta.content
                            ("```json\n" ++ stringifyResult outEx runEx ++ "\n```"),
                          finish_reason := none }],
            usage := none },
        SseEvent.chunk
          { id := ctxEx.requestId, object := "chat.completion.chunk",
            created := ctxEx.created, model := ctxEx.model,
            choices := [{ index := 0, delta := Delta.empty, finish_reason := some "stop" }],
            usage := if ctxEx.include_usage then
                some { prompt_tokens := 0, completion_tokens := 0, total_tokens := 0 }
              else none },
        SseEvent.done], true)
      ∧ contentConcat (runStart ctxEx [StreamItem.ev (stateEv runEx outEx)]).1
          = "```json\n" ++ stringifyResult outEx runEx ++ "\n```"
      ∧ contentConcat (runStart ctxEx [StreamItem.ev (stateEv runEx outEx)]).1
          ≠ "Hello\n\n" :=
  hello_scenario ctxEx runEx outEx rfl rfl

/-- C8: on the chat-completions route, every request that fails before the
stream exists — missing (or empty after stripping Bearer) Authorization,
unparseable JSON body, a body without stream true, or a failure to create
the backend task run — yields a JSON error response with an error status
code, never the SSE stream, so no SSE bytes are emitted. -/
theorem pre_stream_error_response (req : HttpRequest) (rid : String) (now : Nat)
    (ce : Option String)
    (hp : req.pathname = "/chat/completions") (hm : req.method = "POST")
    (hfail : apiKeyOf req = none ∨ apiKeyOf req = some "" ∨ req.body = none
      ∨ (∃ b, req.body = some b ∧ b.stream.getD false = false) ∨ ce ≠ none) :
    ∃ s msg t, fetchHandler req rid now ce = FetchOutcome.jsonError s msg t
      ∧ 400 ≤ s ∧ s ≤ 500 := by
  unfold fetchHandler
  rw [if_neg (by simp [hp, hm])]
  split
  · exact ⟨401, _, _, rfl, by norm_num, by norm_num⟩
  · rename_i k hk
    by_cases hke : k = ""
    · rw [if_pos hke]
      exact ⟨401, _, _, rfl, by norm_num, by norm_num⟩
    · rw [if_neg hke]
      split
      · exact ⟨400, _, _, rfl, by norm_num, by norm_num⟩
      · rename_i b hb
        by_cases hs : b.stream.getD false = true
        · rw [if_neg (by simp [hs])]
          split
          · exact ⟨500, _, _, rfl, by norm_num, by norm_num⟩
          · exfalso
            rcases hfail with h | h | h | ⟨b2, hb2, hs2⟩ | h
            · rw [hk] at h
              exact Option.noConfusion h
            · rw [hk] at h
              exact hke (Option.some.inj h)
            · rw [hb] at h
              exact Option.noConfusion h
            · rw [hb] at hb2
              have hbb : b = b2 := Option.some.inj hb2
              rw [← hbb] at hs2
              rw [hs] at hs2
              exact Bool.noConfusion hs2
            · exact h rfl
        · rw [if_pos (by simpa using hs)]
          exact ⟨400, _, _, rfl, by norm_num, by norm_num⟩

/-- A sample request with a well-formed streaming body but no Authorization
header. -/
def reqNoAuth : HttpRequest :=
  { pathname := "/chat/completions", method := "POST", authorization := none,
    body := some
      { model := "base", messages := [{ role := "user", content := "hi" }],
        stream := some true, stream_options := none } }

/-- C8 witness: the statement at a concrete request lacking the header. -/
theorem pre_stream_error_response_witness :
    ∃ s msg t, fetchHandler reqNoAuth "chatcmpl-1" 0 none = FetchOutcome.jsonError s msg t
      ∧ 400 ≤ s ∧ s ≤ 500 :=
  pre_stream_error_response reqNoAuth "chatcmpl-1" 0 none rfl rfl (Or.inl rfl)

/-- The envelope invariant of one SSE event: a chunk carries the fixed
request id, the chat.completion.chunk tag, the request model, and exactly
one choice with index 0. -/
def envelopeOk (ctx : Ctx) : SseEvent → Prop
  | SseEvent.done => True
  | SseEvent.chunk c =>
    c.id = ctx.requestId ∧ c.object = "chat.completion.chunk" ∧ c.model = ctx.model
      ∧ ∃ d fr, c.choices = [{ index := 0, delta := d, finish_reason := fr }]

/-- Every event a single switch iteration emits satisfies the envelope. -/
theorem processEvent_envelope (ctx : Ctx) (e : Event) :
    ∀ ev ∈ (processEvent ctx e).1, envelopeOk ctx ev := by
  intro ev hev
  unfold processEvent at hev
  repeat' split at hev
  all_goals simp only [List.mem_cons, List.mem_singleton, List.not_mem_nil, or_false] at hev
  all_goals try (rcases hev with rfl | rfl | rfl)
  all_goals first
  | exact ⟨rfl, rfl, rfl, _, _, rfl⟩
  | trivial

/-- Every event the loop emits satisfies the envelope. -/
theorem eventsLoop_envelope (ctx : Ctx) (items : List StreamItem) :
    ∀ ev ∈ (eventsLoop ctx items).1, envelopeOk ctx ev := by
  induction items with
  | nil =>
    intro ev hev
    simp [eventsLoop] at hev
    subst hev
    trivial
  | cons it rest ih =>
    cases it with
    | exn m =>
      intro ev hev
      simp only [eventsLoop, catchChunks, List.mem_cons, List.not_mem_nil, or_false] at hev
      rcases hev with rfl | rfl
      · exact ⟨rfl, rfl, rfl, _, _, rfl⟩
      · trivial
    | ev e =>
      intro ev hev
      by_cases h : (processEvent ctx e).2 = true
      · have : eventsLoop ctx (StreamItem.ev e :: rest) = ((processEvent ctx e).1, true) := by
          simp [eventsLoop, h]
        rw [this] at hev
        exact processEvent_envelope ctx e ev hev
      · have : eventsLoop ctx (StreamItem.ev e :: rest) =
            ((processEvent ctx e).1 ++ (eventsLoop ctx rest).1, (eventsLoop ctx rest).2) := by
          simp [eventsLoop, h]
        rw [this] at hev
        rcases List.mem_append.mp hev with hm | hm
        · exact processEvent_envelope ctx e ev hm
        · exact ih ev hm

/-- C9: every SSE data event of one request, other than the [DONE] line, is a
chunk carrying the request id fixed at request start, the object tag
chat.completion.chunk, the model echoed from the request, and a choices list
of exactly one element with index 0, on every emission path. -/
theorem chunk_envelope_invariant (ctx : Ctx) (items : List StreamItem) :
    ∀ ev ∈ (runStart ctx items).1, envelopeOk ctx ev := by
  intro ev hev
  unfold runStart at hev
  rcases List.mem_cons.mp hev with rfl | hm
  · exact ⟨rfl, rfl, rfl, _, _, rfl⟩
  · exact eventsLoop_envelope ctx items ev hm

/-- C9 witness: the invariant applied to a concrete emitted chunk of a
concrete run. -/
theorem chunk_envelope_invariant_witness :
    envelopeOk ctxEx (SseEvent.chunk statsChunkEx) :=
  chunk_envelope_invariant ctxEx [StreamItem.ev (statsEv 5 2)]
    (SseEvent.chunk statsChunkEx) (by decide)

/-- The usage discipline of one SSE event: a chunk carries a usage block only
if usage reporting was requested, and then it is the zero-valued block on the
empty-delta stop chunk of the completed path. -/
def usageOk (ctx : Ctx) : SseEvent → Prop
  | SseEvent.done => True
  | SseEvent.chunk c =>
    c.usage ≠ none →
      ctx.include_usage = true
        ∧ c.usage = some { prompt_tokens := 0, completion_tokens := 0, total_tokens := 0 }
        ∧ c.choices = [{ index := 0, delta := Delta.empty, finish_reason := some "stop" }]

/-- Every event a single switch iteration emits obeys the usage discipline. -/
theorem processEvent_usage (ctx : Ctx) (e : Event) :
    ∀ ev ∈ (processEvent ctx e).1, usageOk ctx ev := by
  intro ev hev
  unfold processEvent at hev
  repeat' split at hev
  all_goals simp only [List.mem_cons, List.mem_singleton, List.not_mem_nil, or_false] at hev
  all_goals try (rcases hev with rfl | rfl | rfl)
  all_goals try trivial
  all_goals intro hu
  all_goals first
  | exact absurd rfl hu
  | (rename_i hic
     exact ⟨hic, rfl, rfl⟩)

/-- Every event the loop emits obeys the usage discipline. -/
theorem eventsLoop_usage (ctx : Ctx) (items : List StreamItem) :
    ∀ ev ∈ (eventsLoop ctx items).1, usageOk ctx ev := by
  induction items with
  | nil =>
    intro ev hev
    simp [eventsLoop] at hev
    subst hev
    trivial
  | cons it rest ih =>
    cases it with
    | exn m =>
      intro ev hev
      simp only [eventsLoop, catchChunks, List.mem_cons, List.not_mem_nil, or_false] at hev
      rcases hev with rfl | rfl
      · intro hu
        exact absurd rfl hu
      · trivial
    | ev e =>
      intro ev hev
      by_cases h : (processEvent ctx e).2 = true
      · have : eventsLoop ctx (StreamItem.ev e :: rest) = ((processEvent ctx e).1, true) := by
          simp [eventsLoop, h]
        rw [this] at hev
        exact processEvent_usage ctx e ev hev
      · have : eventsLoop ctx (StreamItem.ev e :: rest) =
            ((processEvent ctx e).1 ++ (eventsLoop ctx rest).1, (eventsLoop ctx rest).2) := by
          simp [eventsLoop, h]
        rw [this] at hev
        rcases List.mem_append.mp hev with hm | hm
        · exact processEvent_usage ctx e ev hm
        · exact ih ev hm

/-- C10: a usage block appears only when usage reporting was requested, and
then only as the zero-valued block on the empty-delta finish_reason=stop
terminal chunk — the chunk only the successful run-completed path emits;
failed or cancelled runs, explicit error events, exceptions during
consumption, and the fallback close never attach usage to any chunk. -/
theorem usage_only_on_completed_terminal (ctx : Ctx) (items : List StreamItem)
    (c : Chunk) (hmem : SseEvent.chunk c ∈ (runStart ctx items).1)
    (hu : c.usage ≠ none) :
    ctx.include_usage = true
      ∧ c.usage = some { prompt_tokens := 0, completion_tokens := 0, total_tokens := 0 }
      ∧ c.choices = [{ index := 0, delta := Delta.empty, finish_reason := some "stop" }] := by
  have hok : usageOk ctx (SseEvent.chunk c) := by
    unfold runStart at hmem
    rcases List.mem_cons.mp hmem with heq | hm
    · have hc : c = headerChunk ctx := SseEvent.chunk.inj heq
      rw [hc]
      intro hu2
      exact absurd rfl hu2
    · exact eventsLoop_usage ctx items _ hm
  exact hok hu

/-- C10 witness: the terminal chunk of a completed run with usage requested
carries the zero-valued block. -/
theorem usage_only_on_completed_terminal_witness :
    ctxExU.include_usage = true
      ∧ (some { prompt_tokens := 0, completion_tokens := 0, total_tokens := 0 }
          : Option Usage)
        = some { prompt_tokens := 0, completion_tokens := 0, total_tokens := 0 }
      ∧ ({ id := "chatcmpl-1", object := "chat.completion.chunk", created := 0,
           model := "base",
           choices := [{ index := 0, delta := Delta.empty, finish_reason := some "stop" }],
           usage := some { prompt_tokens := 0, completion_tokens := 0, total_tokens := 0 }
         } : Chunk).choices
        = [{ index := 0, delta := Delta.empty, finish_reason := some "stop" }] :=
  usage_only_on_completed_terminal ctxExU [StreamItem.ev (stateEv runEx outEx)]
    { id := "chatcmpl-1", object := "chat.completion.chunk", created := 0,
      model := "base",
      choices := [{ index := 0, delta := Delta.empty, finish_reason := some "stop" }],
      usage := some { prompt_tokens := 0, completion_tokens := 0, total_tokens := 0 } }
    (by decide) (by decide)
